import Mathlib

/-!
Verification of the derived fitness-metrics pipeline of the
`workout_deploy` repository (Django fitness-tracking application).

The source of truth is the repository code:
* `fitness_app/models.py` — `User.bmi`, `User.update_workout_stats`,
  `WorkoutSession.save`;
* `fitness_app/views.py` — `update_user_performance_metrics`,
  `update_user_summary_index`, `leaderboard`;
* `fitness_app/serializers.py` — `PerformanceMetricsSerializer`.

Python floats are embedded as `ℚ`, Python `None` as `Option.none`, and
Python `round(x, 2)` (banker rounding) as `round2` below.  Model
classes that `views.py`/`serializers.py` reference but whose definitions
are absent from the repository snapshot (the revision of
`PerformanceMetrics` carrying the four component scores, the
`UserProfile.bmr` property, `get_fitness_grade`, and the ranking engine)
are modelled from the specification and are marked as such in their doc
comments.
-/

namespace WorkoutDeploy

/-- Round-half-to-even on `ℚ`, the rounding mode of the Python built-in
`round`: the nearer integer, ties going to the even neighbour. -/
def roundHalfEven (q : ℚ) : ℤ :=
  if q - ⌊q⌋ < 1/2 then ⌊q⌋
  else if 1/2 < q - ⌊q⌋ then ⌊q⌋ + 1
  else if ⌊q⌋ % 2 = 0 then ⌊q⌋ else ⌊q⌋ + 1

/-- Python `round(x, 2)`: round to two decimal places. -/
def round2 (q : ℚ) : ℚ := (roundHalfEven (q * 100) : ℚ) / 100

lemma roundHalfEven_le (q : ℚ) : (roundHalfEven q : ℚ) ≤ q + 1/2 := by
  have hfl : (⌊q⌋ : ℚ) ≤ q := Int.floor_le q
  unfold roundHalfEven
  split_ifs with h1 h2 h3
  · linarith
  · push_cast; linarith
  · linarith
  · have heq : q - ⌊q⌋ = 1/2 := le_antisymm (not_lt.mp h2) (not_lt.mp h1)
    push_cast
    linarith

lemma le_roundHalfEven (q : ℚ) : q - 1/2 ≤ (roundHalfEven q : ℚ) := by
  have hfl : q < ⌊q⌋ + 1 := Int.lt_floor_add_one q
  unfold roundHalfEven
  split_ifs with h1 h2 h3
  · linarith
  · push_cast; linarith
  · have heq : q - ⌊q⌋ = 1/2 := le_antisymm (not_lt.mp h2) (not_lt.mp h1)
    linarith
  · push_cast; linarith

lemma roundHalfEven_mono {x y : ℚ} (h : x ≤ y) :
    roundHalfEven x ≤ roundHalfEven y := by
  by_contra hlt
  push_neg at hlt
  have c1 : (roundHalfEven x : ℚ) ≤ x + 1/2 := roundHalfEven_le x
  have c2 : y - 1/2 ≤ (roundHalfEven y : ℚ) := le_roundHalfEven y
  have c3 : (roundHalfEven y : ℚ) + 1 ≤ (roundHalfEven x : ℚ) := by
    exact_mod_cast Int.add_one_le_iff.mpr hlt
  have hyx : y ≤ x := by linarith
  have hxy : x = y := le_antisymm h hyx
  subst hxy
  exact lt_irrefl _ hlt

lemma round2_mono {x y : ℚ} (h : x ≤ y) : round2 x ≤ round2 y := by
  unfold round2
  have h2 : (roundHalfEven (x * 100) : ℚ) ≤ (roundHalfEven (y * 100) : ℚ) := by
    exact_mod_cast roundHalfEven_mono (by linarith)
  linarith

/-- Python truthiness of an optional float: `None` and `0.0` are falsy. -/
def truthyQ : Option ℚ → Bool
  | none => false
  | some x => decide (x ≠ 0)

/-- `User.bmi` (`fitness_app/models.py`):
`if self.height and self.weight: height_m = self.height / 100;
return round(self.weight / (height_m ** 2), 2)` and `None` otherwise. -/
def bmi (height weight : Option ℚ) : Option ℚ :=
  if truthyQ height && truthyQ weight then
    some (round2 ((weight.getD 0) / ((height.getD 0) / 100) ^ 2))
  else none

lemma bmi_some {hv wv : ℚ} (hh : hv ≠ 0) (hw : wv ≠ 0) :
    bmi (some hv) (some wv) = some (round2 (wv / (hv / 100) ^ 2)) := by
  simp [bmi, truthyQ, hh, hw]

/-- C5: `User.bmi` returns `None` when height or weight is missing and
otherwise `weight / (height/100)^2` rounded to two decimals; in
particular `bmi 175cm 70kg = 22.86`.  (The range validators of the profile
guarantee that a present height/weight is positive, hence truthy.) -/
theorem C5_bmi_formula :
    (∀ w, bmi none w = none)
  ∧ (∀ h, bmi h none = none)
  ∧ (∀ hv wv : ℚ, 0 < hv → 0 < wv →
      bmi (some hv) (some wv) = some (round2 (wv / (hv / 100) ^ 2)))
  ∧ bmi (some 175) (some 70) = some 22.86 := by
  refine ⟨fun w => rfl, fun h => ?_, fun hv wv hh hw => bmi_some (ne_of_gt hh) (ne_of_gt hw), ?_⟩
  · cases h <;> simp [bmi, truthyQ]
  · have h : (⌊(70 / (175/100 : ℚ) ^ 2 * 100)⌋ : ℤ) = 2285 := by
      norm_num [Int.floor_eq_iff]
    simp only [bmi, truthyQ, round2, roundHalfEven, h]
    norm_num

/-- Witness for C5 at height 175, weight 70. -/
theorem C5_bmi_formula_witness :
    (0:ℚ) < 175 ∧ (0:ℚ) < 70 ∧
    bmi (some 175) (some 70) = some (round2 (70 / ((175:ℚ) / 100) ^ 2)) :=
  ⟨by norm_num, by norm_num, C5_bmi_formula.2.2.1 175 70 (by norm_num) (by norm_num)⟩

/-- C6: with the 2-decimal rounding applied by `User.bmi`, the BMI is
monotonically non-decreasing in weight (height fixed) and
non-increasing in height (weight fixed), for positive inputs. -/
theorem C6_bmi_monotone :
    (∀ hv w1 w2 : ℚ, 0 < hv → 0 < w1 → w1 ≤ w2 →
      ∃ b1 b2, bmi (some hv) (some w1) = some b1 ∧ bmi (some hv) (some w2) = some b2 ∧ b1 ≤ b2)
  ∧ (∀ h1 h2 wv : ℚ, 0 < wv → 0 < h1 → h1 ≤ h2 →
      ∃ b1 b2, bmi (some h1) (some wv) = some b1 ∧ bmi (some h2) (some wv) = some b2 ∧ b2 ≤ b1) := by
  constructor
  · intro hv w1 w2 hh hw1 hw12
    refine ⟨_, _, bmi_some (ne_of_gt hh) (ne_of_gt hw1),
      bmi_some (ne_of_gt hh) (ne_of_gt (lt_of_lt_of_le hw1 hw12)), ?_⟩
    apply round2_mono
    gcongr
  · intro h1 h2 wv hw hh1 hh12
    have hh2 : 0 < h2 := lt_of_lt_of_le hh1 hh12
    refine ⟨_, _, bmi_some (ne_of_gt hh1) (ne_of_gt hw),
      bmi_some (ne_of_gt hh2) (ne_of_gt hw), ?_⟩
    apply round2_mono
    gcongr

/-- Witness for C6 at (height 175, weights 70 ≤ 80) and
(heights 170 ≤ 180, weight 70). -/
theorem C6_bmi_monotone_witness :
    ((0:ℚ) < 175 ∧ (0:ℚ) < 70 ∧ (70:ℚ) ≤ 80 ∧ (170:ℚ) ≤ 180)
  ∧ (∃ b1 b2, bmi (some 175) (some 70) = some b1 ∧ bmi (some 175) (some 80) = some b2 ∧ b1 ≤ b2)
  ∧ (∃ b1 b2, bmi (some 170) (some 70) = some b1 ∧ bmi (some 180) (some 70) = some b2 ∧ b2 ≤ b1) :=
  ⟨⟨by norm_num, by norm_num, by norm_num, by norm_num⟩,
   C6_bmi_monotone.1 175 70 80 (by norm_num) (by norm_num) (by norm_num),
   C6_bmi_monotone.2 170 180 70 (by norm_num) (by norm_num) (by norm_num)⟩

/-- Modelled from the spec: the `UserProfile.bmr` property exposed by
`UserProfileSerializer` (`fitness_app/serializers.py`) has no definition
in the repository snapshot.  Per the spec it is the Mifflin-St Jeor
equation `10*weight + 6.25*height - 5*age + 5` for gender `"Male"` and
the same expression with `- 161` in place of `+ 5` otherwise, returning
`None` when any input is missing. -/
def compute_bmr : Option ℚ → Option ℚ → Option ℚ → Option String → Option ℚ
  | some w, some h, some a, some g =>
      some (if g = "Male" then 10 * w + 6.25 * h - 5 * a + 5
            else 10 * w + 6.25 * h - 5 * a - 161)
  | _, _, _, _ => none

/-- C7 counterexample: on (70 kg, 175 cm, 30 y, Male) the Mifflin-St Jeor
formula of the spec yields 1648.75, not the 1678.75 the claim asserts
(and 1482.75, not 1512.75, on the female/other branch). -/
theorem C7_bmr_counterexample :
    compute_bmr (some 70) (some 175) (some 30) (some "Male") = some 1648.75
  ∧ compute_bmr (some 70) (some 175) (some 30) (some "Female") = some 1482.75
  ∧ some (1648.75 : ℚ) ≠ some (1678.75 : ℚ)
  ∧ some (1482.75 : ℚ) ≠ some (1512.75 : ℚ) := by
  refine ⟨?_, ?_, ?_, ?_⟩
  · simp only [compute_bmr, if_pos rfl]
    norm_num
  · rw [compute_bmr, if_neg (by decide)]
    norm_num
  · simp only [ne_eq, Option.some.injEq]
    norm_num
  · simp only [ne_eq, Option.some.injEq]
    norm_num

/-- C7 amended: `compute_bmr` implements `10*w + 6.25*h - 5*a + 5` for
"Male" and the same with `- 161` in place of `+ 5` otherwise (female and
other collapse to one branch), returns `None` when any input is missing,
and yields 1648.75 for (70, 175, 30, "Male") and 1482.75 on the
female/other branch for the same inputs. -/
theorem C7_bmr_amended :
    (∀ w h a : ℚ, ∀ g : String, compute_bmr (some w) (some h) (some a) (some g) =
      some (if g = "Male" then 10 * w + 6.25 * h - 5 * a + 5
            else 10 * w + 6.25 * h - 5 * a - 161))
  ∧ (∀ w h a : Option ℚ, ∀ g : Option String,
      w = none ∨ h = none ∨ a = none ∨ g = none → compute_bmr w h a g = none)
  ∧ compute_bmr (some 70) (some 175) (some 30) (some "Male") = some 1648.75
  ∧ compute_bmr (some 70) (some 175) (some 30) (some "Female") = some 1482.75
  ∧ compute_bmr (some 70) (some 175) (some 30) (some "Other") = some 1482.75 := by
  refine ⟨fun w h a g => rfl, ?_, ?_, ?_, ?_⟩
  · intro w h a g hcase
    cases w <;> cases h <;> cases a <;> cases g <;> simp_all [compute_bmr]
  · simp only [compute_bmr, if_pos rfl]
    norm_num
  · rw [compute_bmr, if_neg (by decide)]
    norm_num
  · rw [compute_bmr, if_neg (by decide)]
    norm_num

/-- Witness for C7 amended: a missing weight yields `None`. -/
theorem C7_bmr_amended_witness :
    ((none : Option ℚ) = none ∨ some (175:ℚ) = none ∨ some (30:ℚ) = none ∨ some "Male" = none)
  ∧ compute_bmr none (some 175) (some 30) (some "Male") = none :=
  ⟨Or.inl rfl, C7_bmr_amended.2.1 none (some 175) (some 30) (some "Male") (Or.inl rfl)⟩

/-- Modelled from the spec: `PerformanceMetrics.get_fitness_grade`
(referenced by `PerformanceMetricsSerializer` in
`fitness_app/serializers.py`) has no definition in the repository
snapshot.  Per the spec it steps every 5 points with upper bounds
90, 85, 80, 75, 70, 65, 60, 55, 50 from A+ (>= 90) down, and D below 50. -/
def get_fitness_grade (index : ℚ) : String :=
  if 90 ≤ index then "A+"
  else if 85 ≤ index then "A"
  else if 80 ≤ index then "A-"
  else if 75 ≤ index then "B+"
  else if 70 ≤ index then "B"
  else if 65 ≤ index then "B-"
  else if 60 ≤ index then "C+"
  else if 55 ≤ index then "C"
  else if 50 ≤ index then "C-"
  else "D"

/-- The complete set of grades `get_fitness_grade` can produce. -/
def tenGrades : Finset String :=
  {"A+", "A", "A-", "B+", "B", "B-", "C+", "C", "C-", "D"}

lemma get_fitness_grade_mem_tenGrades (x : ℚ) : get_fitness_grade x ∈ tenGrades := by
  unfold get_fitness_grade
  split_ifs <;> decide

/-- C8 counterexample: `get_fitness_grade` realises exactly ten discrete
bands, not the eleven the claim asserts — every output lies in a fixed
ten-element set of grades. -/
theorem C8_grade_counterexample :
    (∀ x : ℚ, get_fitness_grade x ∈ tenGrades) ∧ tenGrades.card = 10 :=
  ⟨get_fitness_grade_mem_tenGrades, by decide⟩

/-- C8 amended: `get_fitness_grade` maps an index to one of ten discrete
letter bands with breakpoints every 5 points, the nine upper bounds being
90, 85, 80, 75, 70, 65, 60, 55, 50 from A+ (>= 90) down, and D for any
index below 50; boundary values land on the documented side. -/
theorem C8_grade_amended :
    (∀ x : ℚ,
        (90 ≤ x → get_fitness_grade x = "A+")
      ∧ (85 ≤ x → x < 90 → get_fitness_grade x = "A")
      ∧ (80 ≤ x → x < 85 → get_fitness_grade x = "A-")
      ∧ (75 ≤ x → x < 80 → get_fitness_grade x = "B+")
      ∧ (70 ≤ x → x < 75 → get_fitness_grade x = "B")
      ∧ (65 ≤ x → x < 70 → get_fitness_grade x = "B-")
      ∧ (60 ≤ x → x < 65 → get_fitness_grade x = "C+")
      ∧ (55 ≤ x → x < 60 → get_fitness_grade x = "C")
      ∧ (50 ≤ x → x < 55 → get_fitness_grade x = "C-")
      ∧ (x < 50 → get_fitness_grade x = "D"))
  ∧ get_fitness_grade 90 = "A+"
  ∧ get_fitness_grade 89.9 = "A"
  ∧ get_fitness_grade 49.9 = "D" := by
  refine ⟨?_, by norm_num [get_fitness_grade], by norm_num [get_fitness_grade],
    by norm_num [get_fitness_grade]⟩
  intro x
  unfold get_fitness_grade
  split_ifs <;>
    refine ⟨?_, ?_, ?_, ?_, ?_, ?_, ?_, ?_, ?_, ?_⟩ <;> intros <;> first | rfl | linarith

/-- Witness for C8 amended at index 92 (band A+). -/
theorem C8_grade_amended_witness :
    (90:ℚ) ≤ 92 ∧ get_fitness_grade 92 = "A+" :=
  ⟨by norm_num, (C8_grade_amended.1 92).1 (by norm_num)⟩

/-- Python `str.lower()` on a string. -/
def strLower (s : String) : String := String.mk (s.data.map Char.toLower)

/-- Python substring containment, `needle in hay`. -/
def substrIn (needle : List Char) : List Char → Bool
  | [] => needle.isEmpty
  | c :: t => needle.isPrefixOf (c :: t) || substrIn needle t

/-- The intensity-multiplier lookup of `update_user_performance_metrics`
(`fitness_app/views.py`): a dict lookup taking
Low to 0.5, Medium to 1.0 and High to 1.5, any other label defaulting
to 1.0 via `.get`. -/
def intensity_multiplier (intensity : String) : ℚ :=
  if intensity = "Low" then 0.5
  else if intensity = "Medium" then 1
  else if intensity = "High" then 1.5
  else 1

/-- Modelled from the spec: the composite-index weighting of the
`PerformanceMetrics` model revision referenced by
`PerformanceMetricsSerializer`; the model class itself is absent from
the repository snapshot. -/
def overall_fitness_index (cardio strength flexibility endurance : ℚ) : ℚ :=
  0.30 * cardio + 0.25 * strength + 0.20 * flexibility + 0.25 * endurance

/-- The `PerformanceMetrics` row fields manipulated by
`update_user_performance_metrics` (`fitness_app/views.py`). -/
structure PerformanceMetrics where
  cardiovascular_score : ℚ
  strength_score : ℚ
  flexibility_score : ℚ
  endurance_score : ℚ
  overall_fitness_index : ℚ
  total_calories_burned : ℚ
  total_workout_time : ℚ
  workout_frequency : ℕ
  calorie_efficiency : ℚ

/-- Modelled from the spec: persisting a `PerformanceMetrics` row
recomputes `overall_fitness_index` from the four component scores
immediately before persistence (the `save` method of the model is absent
from the repository snapshot). -/
def savePerformanceMetrics (m : PerformanceMetrics) : PerformanceMetrics :=
  { m with overall_fitness_index :=
      (overall_fitness_index m.cardiovascular_score m.strength_score
        m.flexibility_score m.endurance_score) }

/-- `read_only_fields` of `PerformanceMetricsSerializer`
(`fitness_app/serializers.py`). -/
def performanceMetricsSerializer_read_only_fields : List String :=
  ["id", "overall_fitness_index", "created_at", "updated_at"]

/-- The calorie-efficiency update of `update_user_performance_metrics`
(`fitness_app/views.py`): `if metrics.total_workout_time > 0:
metrics.calorie_efficiency = metrics.total_calories_burned /
metrics.total_workout_time` — with no `else`, the stored value is kept
when the denominator is not positive. -/
def calorie_efficiency_update (old total_calories total_minutes : ℚ) : ℚ :=
  if 0 < total_minutes then total_calories / total_minutes else old

/-- The improvement-trend update of `update_user_summary_index`
(`fitness_app/views.py`): `if prev_week_calories > 0:
summary.improvement_trend = ((last_week_calories - prev_week_calories)
/ prev_week_calories) * 100` — with no `else`, the stored value is kept
when the denominator is not positive. -/
def improvement_trend_update (old last_week prev_week : ℚ) : ℚ :=
  if 0 < prev_week then (last_week - prev_week) / prev_week * 100 else old

/-- A workout session as read by `update_user_performance_metrics`:
the name of its exercise type, its duration, calories, and intensity label. -/
structure WorkoutSession where
  exercise_type_name : String
  duration_minutes : ℚ
  calories_burned : ℚ
  intensity : String

/-- `update_user_performance_metrics` (`fitness_app/views.py`): bump the
daily totals, recompute efficiency, set the 7-day frequency, then bump
component scores by keyword match on the exercise type name, each capped
at 100, and save (the save recomputing the overall index per the spec,
the model class being absent from the snapshot). -/
def update_user_performance_metrics (metrics : PerformanceMetrics)
    (recent_sessions : ℕ) (ws : WorkoutSession) : PerformanceMetrics :=
  let m1 := { metrics with
      total_calories_burned := metrics.total_calories_burned + ws.calories_burned,
      total_workout_time := metrics.total_workout_time + ws.duration_minutes }
  let m2 := { m1 with
      calorie_efficiency := calorie_efficiency_update m1.calorie_efficiency
        m1.total_calories_burned m1.total_workout_time }
  let m3 := { m2 with workout_frequency := recent_sessions }
  let mult := intensity_multiplier ws.intensity
  let lowered := strLower ws.exercise_type_name
  savePerformanceMetrics (
    if substrIn "cardio".data lowered.data then
      { m3 with
          cardiovascular_score := min 100 (m3.cardiovascular_score + 2 * mult),
          endurance_score := min 100 (m3.endurance_score + 1.5 * mult) }
    else if substrIn "strength".data lowered.data then
      { m3 with strength_score := min 100 (m3.strength_score + 2 * mult) }
    else if substrIn "yoga".data lowered.data then
      { m3 with flexibility_score := min 100 (m3.flexibility_score + 2 * mult) }
    else m3)

/-- C1: the overall fitness index is the fixed weighted sum
`0.30*cardio + 0.25*strength + 0.20*flexibility + 0.25*endurance`
(hence 72.25 at (80,70,60,75)); every persistence of a
`PerformanceMetrics` row recomputes it from the four component scores —
an independently supplied value is discarded — and the serializer
declares the field read-only. -/
theorem C1_overall_fitness_index :
    overall_fitness_index 80 70 60 75 = 72.25
  ∧ (∀ m : PerformanceMetrics, (savePerformanceMetrics m).overall_fitness_index =
      overall_fitness_index m.cardiovascular_score m.strength_score
        m.flexibility_score m.endurance_score)
  ∧ (∀ m : PerformanceMetrics, ∀ v : ℚ,
      savePerformanceMetrics { m with overall_fitness_index := v } = savePerformanceMetrics m)
  ∧ (∀ (m : PerformanceMetrics) (rc : ℕ) (ws : WorkoutSession),
      (update_user_performance_metrics m rc ws).overall_fitness_index =
        overall_fitness_index
          (update_user_performance_metrics m rc ws).cardiovascular_score
          (update_user_performance_metrics m rc ws).strength_score
          (update_user_performance_metrics m rc ws).flexibility_score
          (update_user_performance_metrics m rc ws).endurance_score)
  ∧ "overall_fitness_index" ∈ performanceMetricsSerializer_read_only_fields := by
  refine ⟨by norm_num [overall_fitness_index], fun m => rfl, fun m v => rfl,
    fun m rc ws => rfl, by decide⟩

/-- C2 counterexample: a session whose exercise type name is "Running"
contains none of the keywords "cardio", "strength", "yoga", so a
High-intensity "Running" session leaves the cardiovascular and endurance
scores unchanged instead of raising them by 2*1.5 and 1.5*1.5. -/
theorem C2_running_counterexample :
    (update_user_performance_metrics ⟨50, 50, 50, 50, 0, 0, 0, 0, 0⟩ 3
      ⟨"Running", 30, 300, "High"⟩).cardiovascular_score = 50
  ∧ (update_user_performance_metrics ⟨50, 50, 50, 50, 0, 0, 0, 0, 0⟩ 3
      ⟨"Running", 30, 300, "High"⟩).endurance_score = 50
  ∧ (update_user_performance_metrics
      (update_user_performance_metrics
        (update_user_performance_metrics ⟨50, 50, 50, 50, 0, 0, 0, 0, 0⟩ 1
          ⟨"Running", 30, 300, "High"⟩) 2
        ⟨"Running", 30, 300, "High"⟩) 3
      ⟨"Running", 30, 300, "High"⟩).cardiovascular_score = 50
  ∧ (50:ℚ) < 50 + 2 * 1.5
  ∧ (50:ℚ) < 50 + 1.5 * 1.5 := by
  have hc : substrIn "cardio".data (strLower "Running").data = false := by decide
  have hs : substrIn "strength".data (strLower "Running").data = false := by decide
  have hy : substrIn "yoga".data (strLower "Running").data = false := by decide
  refine ⟨?_, ?_, ?_, by norm_num, by norm_num⟩ <;>
    simp [update_user_performance_metrics, savePerformanceMetrics, hc, hs, hy]

/-- C2 amended: each new session bumps exactly the component scores
selected by keyword match on the exercise type name, first match wins
("cardio" raises cardiovascular by 2*m and endurance by 1.5*m,
"strength" raises strength by 2*m, "yoga" raises flexibility by 2*m,
with m = 0.5/1/1.5 for Low/Medium/High), each capped at 100; a name
matching no keyword — such as "Running" — leaves all four scores
unchanged. -/
theorem C2_component_scores_amended :
    ∀ (m : PerformanceMetrics) (rc : ℕ) (ws : WorkoutSession),
      (substrIn "cardio".data (strLower ws.exercise_type_name).data = true →
          (update_user_performance_metrics m rc ws).cardiovascular_score
            = min 100 (m.cardiovascular_score + 2 * intensity_multiplier ws.intensity)
        ∧ (update_user_performance_metrics m rc ws).endurance_score
            = min 100 (m.endurance_score + 1.5 * intensity_multiplier ws.intensity)
        ∧ (update_user_performance_metrics m rc ws).strength_score = m.strength_score
        ∧ (update_user_performance_metrics m rc ws).flexibility_score = m.flexibility_score)
    ∧ (substrIn "cardio".data (strLower ws.exercise_type_name).data = false →
       substrIn "strength".data (strLower ws.exercise_type_name).data = true →
          (update_user_performance_metrics m rc ws).strength_score
            = min 100 (m.strength_score + 2 * intensity_multiplier ws.intensity)
        ∧ (update_user_performance_metrics m rc ws).cardiovascular_score = m.cardiovascular_score
        ∧ (update_user_performance_metrics m rc ws).endurance_score = m.endurance_score
        ∧ (update_user_performance_metrics m rc ws).flexibility_score = m.flexibility_score)
    ∧ (substrIn "cardio".data (strLower ws.exercise_type_name).data = false →
       substrIn "strength".data (strLower ws.exercise_type_name).data = false →
       substrIn "yoga".data (strLower ws.exercise_type_name).data = true →
          (update_user_performance_metrics m rc ws).flexibility_score
            = min 100 (m.flexibility_score + 2 * intensity_multiplier ws.intensity)
        ∧ (update_user_performance_metrics m rc ws).cardiovascular_score = m.cardiovascular_score
        ∧ (update_user_performance_metrics m rc ws).endurance_score = m.endurance_score
        ∧ (update_user_performance_metrics m rc ws).strength_score = m.strength_score)
    ∧ (substrIn "cardio".data (strLower ws.exercise_type_name).data = false →
       substrIn "strength".data (strLower ws.exercise_type_name).data = false →
       substrIn "yoga".data (strLower ws.exercise_type_name).data = false →
          (update_user_performance_metrics m rc ws).cardiovascular_score = m.cardiovascular_score
        ∧ (update_user_performance_metrics m rc ws).strength_score = m.strength_score
        ∧ (update_user_performance_metrics m rc ws).flexibility_score = m.flexibility_score
        ∧ (update_user_performance_metrics m rc ws).endurance_score = m.endurance_score)
    ∧ intensity_multiplier "Low" = 0.5
    ∧ intensity_multiplier "Medium" = 1
    ∧ intensity_multiplier "High" = 1.5
    ∧ substrIn "cardio".data (strLower "Running").data = false
    ∧ substrIn "strength".data (strLower "Running").data = false
    ∧ substrIn "yoga".data (strLower "Running").data = false := by
  intro m rc ws
  refine ⟨?_, ?_, ?_, ?_, by simp [intensity_multiplier], by simp [intensity_multiplier],
    by simp [intensity_multiplier], by decide, by decide, by decide⟩
  · intro h1
    refine ⟨?_, ?_, ?_, ?_⟩ <;>
      simp [update_user_performance_metrics, savePerformanceMetrics, h1]
  · intro h1 h2
    refine ⟨?_, ?_, ?_, ?_⟩ <;>
      simp [update_user_performance_metrics, savePerformanceMetrics, h1, h2]
  · intro h1 h2 h3
    refine ⟨?_, ?_, ?_, ?_⟩ <;>
      simp [update_user_performance_metrics, savePerformanceMetrics, h1, h2, h3]
  · intro h1 h2 h3
    refine ⟨?_, ?_, ?_, ?_⟩ <;>
      simp [update_user_performance_metrics, savePerformanceMetrics, h1, h2, h3]

/-- Witness for C2 amended: a "Morning Cardio" High session bumps the
cardiovascular score. -/
theorem C2_component_scores_amended_witness :
    substrIn "cardio".data (strLower "Morning Cardio").data = true
  ∧ (update_user_performance_metrics ⟨50, 50, 50, 50, 0, 0, 0, 0, 0⟩ 1
      ⟨"Morning Cardio", 30, 300, "High"⟩).cardiovascular_score
      = min 100 (50 + 2 * intensity_multiplier "High") := by
  refine ⟨by decide, ?_⟩
  exact ((C2_component_scores_amended ⟨50, 50, 50, 50, 0, 0, 0, 0, 0⟩ 1
    ⟨"Morning Cardio", 30, 300, "High"⟩).1 (by decide)).1

/-- C3 counterexample: when the previous window total is 0 the code
keeps the previously stored trend instead of substituting 0 — with a
stored trend of 7, `trend_delta(120, 0)` reads back 7, not 0. -/
theorem C3_trend_counterexample :
    improvement_trend_update 7 120 0 = 7 ∧ (0:ℚ) < 7 := by
  constructor
  · simp [improvement_trend_update]
  · norm_num

/-- C3 amended: the improvement trend equals `(a - b) / b * 100` when
`b > 0`; when `b <= 0` the stored value is left unchanged (hence 0 on a
summary whose trend is still the default 0, as in `trend_delta(120, 0)`),
and no division occurs; `trend_delta(150, 100) = 50`. -/
theorem C3_trend_amended : ∀ old a b : ℚ,
    improvement_trend_update old a b = (if 0 < b then (a - b) / b * 100 else old)
  ∧ improvement_trend_update old 120 0 = old
  ∧ improvement_trend_update old 150 100 = 50
  ∧ improvement_trend_update 0 120 0 = 0 := by
  intro old a b
  refine ⟨rfl, by simp [improvement_trend_update], ?_, by simp [improvement_trend_update]⟩
  norm_num [improvement_trend_update]

/-- C4 counterexample: when the total workout time is 0 the code keeps
the previously stored efficiency instead of substituting 0 — with a
stored efficiency of 5, the result is 5, not 0. -/
theorem C4_efficiency_counterexample :
    calorie_efficiency_update 5 120 0 = 5 ∧ (0:ℚ) < 5 := by
  constructor
  · simp [calorie_efficiency_update]
  · norm_num

/-- C4 amended: the calorie efficiency equals
`total_calories / total_minutes` when `total_minutes > 0`; when
`total_minutes = 0` the stored value is left unchanged (hence 0 on a
freshly created metrics row) and no division occurs;
`update_user_performance_metrics` recomputes it from the post-update
totals. -/
theorem C4_efficiency_amended : ∀ old c t : ℚ,
    calorie_efficiency_update old c t = (if 0 < t then c / t else old)
  ∧ calorie_efficiency_update 0 c 0 = 0
  ∧ calorie_efficiency_update old 300 30 = 10
  ∧ (∀ (m : PerformanceMetrics) (rc : ℕ) (ws : WorkoutSession),
      (update_user_performance_metrics m rc ws).calorie_efficiency
        = calorie_efficiency_update m.calorie_efficiency
            (m.total_calories_burned + ws.calories_burned)
            (m.total_workout_time + ws.duration_minutes)) := by
  intro old c t
  refine ⟨rfl, by simp [calorie_efficiency_update], ?_, ?_⟩
  · norm_num [calorie_efficiency_update]
  · intro m rc ws
    have h : ∀ x : PerformanceMetrics, (savePerformanceMetrics x).calorie_efficiency
        = x.calorie_efficiency := fun x => rfl
    rw [update_user_performance_metrics]
    split_ifs <;> rfl

/-- Stable descending insertion: `x` is placed before the first element
whose key is not greater, so earlier elements keep their position on
ties. -/
def insertDesc (key : α → ℚ) (x : α) : List α → List α
  | [] => [x]
  | y :: t => if key x < key y then y :: insertDesc key x t else x :: y :: t

/-- Stable sort by descending key. -/
def sortDesc (key : α → ℚ) (l : List α) : List α := l.foldr (insertDesc key) []

lemma insertDesc_perm (key : α → ℚ) (x : α) :
    ∀ l : List α, (insertDesc key x l).Perm (x :: l)
  | [] => List.Perm.refl _
  | y :: t => by
      rw [insertDesc]
      split_ifs with h
      · exact ((insertDesc_perm key x t).cons y).trans (List.Perm.swap x y t)
      · exact List.Perm.refl _

lemma sortDesc_perm (key : α → ℚ) : ∀ l : List α, (sortDesc key l).Perm l
  | [] => List.Perm.refl _
  | x :: t =>
      (insertDesc_perm key x (sortDesc key t)).trans ((sortDesc_perm key t).cons x)

lemma insertDesc_pairwise (key : α → ℚ) (x : α) :
    ∀ {l : List α}, l.Pairwise (fun a b => key b ≤ key a) →
      (insertDesc key x l).Pairwise (fun a b => key b ≤ key a) := by
  intro l
  induction l with
  | nil => intro _; simp [insertDesc]
  | cons y t ih =>
      intro h
      rw [List.pairwise_cons] at h
      rw [insertDesc]
      split_ifs with hlt
      · rw [List.pairwise_cons]
        refine ⟨?_, ih h.2⟩
        intro z hz
        rcases List.mem_cons.mp (((insertDesc_perm key x t).mem_iff).mp hz) with h1 | h1
        · rw [h1]
          exact le_of_lt hlt
        · exact h.1 z h1
      · rw [List.pairwise_cons]
        refine ⟨?_, List.pairwise_cons.mpr h⟩
        intro z hz
        rcases List.mem_cons.mp hz with h1 | h1
        · rw [h1]
          exact not_lt.mp hlt
        · exact le_trans (h.1 z h1) (not_lt.mp hlt)

lemma sortDesc_pairwise (key : α → ℚ) :
    ∀ l : List α, (sortDesc key l).Pairwise (fun a b => key b ≤ key a)
  | [] => List.Pairwise.nil
  | x :: t => insertDesc_pairwise key x (sortDesc_pairwise key t)

/-- One row written by the Ranking Engine: user id, 1-based rank, score,
percentile. -/
structure RankEntry where
  user : ℕ
  rank : ℕ
  score : ℚ
  percentile : ℚ

/-- Modelled from the spec: the percentile formula of the Ranking Engine,
`(total_participants - rank) / total_participants * 100` (the engine
itself is absent from the repository snapshot; `views.py:leaderboard`
only reads the stored rows back ordered by rank). -/
def ranking_percentile (total_participants rank : ℕ) : ℚ :=
  ((total_participants : ℚ) - (rank : ℚ)) / (total_participants : ℚ) * 100

/-- Modelled from the spec: the Ranking Engine sorts the participant
scores descending (stable, ties keep insertion order), assigns rank =
1-based position, and sets the percentile from the formula above. -/
def rank_users (scores : List (ℕ × ℚ)) : List RankEntry :=
  (sortDesc Prod.snd scores).enum.map
    (fun p => ⟨p.2.1, p.1 + 1, p.2.2, ranking_percentile scores.length (p.1 + 1)⟩)

/-- C9: the Ranking Engine assigns the dense ranks 1..N in
descending-score order, sets every percentile to
`(N - rank) / N * 100`, and on scores [90, 70, 70, 50] across four users
produces ranks 1,2,3,4 with percentile 75 for rank 1. -/
theorem C9_ranking_engine :
    (∀ scores : List (ℕ × ℚ),
      (rank_users scores).map RankEntry.rank = List.range' 1 scores.length)
  ∧ (∀ scores : List (ℕ × ℚ),
      ((rank_users scores).map RankEntry.score).Pairwise (fun a b => b ≤ a))
  ∧ (∀ scores : List (ℕ × ℚ),
      (rank_users scores).map RankEntry.percentile
        = (rank_users scores).map
            (fun e => ((scores.length : ℚ) - (e.rank : ℚ)) / (scores.length : ℚ) * 100))
  ∧ rank_users [(1, 90), (2, 70), (3, 70), (4, 50)]
      = [⟨1, 1, 90, 75⟩, ⟨2, 2, 70, 50⟩, ⟨3, 3, 70, 25⟩, ⟨4, 4, 50, 0⟩]
  ∧ (rank_users [(1, 90), (2, 70), (3, 70), (4, 50)]).map RankEntry.rank = [1, 2, 3, 4]
  ∧ ranking_percentile 4 1 = 75 := by
  have hconcrete : rank_users [(1, 90), (2, 70), (3, 70), (4, 50)]
      = [⟨1, 1, 90, 75⟩, ⟨2, 2, 70, 50⟩, ⟨3, 3, 70, 25⟩, ⟨4, 4, 50, 0⟩] := by
    norm_num [rank_users, sortDesc, insertDesc, ranking_percentile,
      List.enum_cons, List.enumFrom]
  refine ⟨?_, ?_, ?_, hconcrete, ?_, ?_⟩
  · intro scores
    have hlen : (sortDesc Prod.snd scores).length = scores.length :=
      (sortDesc_perm Prod.snd scores).length_eq
    rw [rank_users, List.map_map]
    have hcomp : (RankEntry.rank ∘ fun p : ℕ × ℕ × ℚ =>
        (⟨p.2.1, p.1 + 1, p.2.2, ranking_percentile scores.length (p.1 + 1)⟩ : RankEntry))
        = (fun i => i + 1) ∘ Prod.fst := rfl
    rw [hcomp, ← List.map_map, List.enum_map_fst, hlen, List.range'_eq_map_range]
    exact List.map_congr_left (fun i _ => Nat.add_comm i 1)
  · intro scores
    have hsorted := sortDesc_pairwise Prod.snd scores
    rw [← List.enum_map_snd (sortDesc Prod.snd scores), List.pairwise_map] at hsorted
    rw [rank_users, List.map_map]
    have hcomp : (RankEntry.score ∘ fun p : ℕ × ℕ × ℚ =>
        (⟨p.2.1, p.1 + 1, p.2.2, ranking_percentile scores.length (p.1 + 1)⟩ : RankEntry))
        = Prod.snd ∘ Prod.snd := rfl
    rw [hcomp, List.pairwise_map]
    exact hsorted
  · intro scores
    rw [rank_users, List.map_map, List.map_map]
    rfl
  · rw [hconcrete]
    rfl
  · norm_num [ranking_percentile]

/-- A workout session row of the Railway-optimized `WorkoutSession`
model (`fitness_app/models.py`), reduced to the field
`update_workout_stats` reads. -/
structure RailwayWorkoutSession where
  calories_burned : ℕ

/-- The aggregate fields of the Railway-optimized `User` model
(`fitness_app/models.py`). -/
structure RailwayUser where
  total_workouts : ℕ
  total_calories_burned : ℕ

/-- `User.update_workout_stats` (`fitness_app/models.py`): recount the
sessions of the user and re-sum their calories, then save those two fields. -/
def update_workout_stats (sessions : List RailwayWorkoutSession)
    (u : RailwayUser) : RailwayUser :=
  { u with
      total_workouts := sessions.length,
      total_calories_burned := (sessions.map RailwayWorkoutSession.calories_burned).sum }

/-- The `save` of the FIRST, shadowed `WorkoutSession` class
(`fitness_app/models.py`, lines 123-178): persist the new row
(`super().save()`), then call `self.user.update_workout_stats()`.
This method is dead code in the program: a second top-level
`class WorkoutSession` later in the same module (line 322) shadows this
class at module level and in the model registry.  It is kept here as
evidence of the intended behaviour. -/
def workoutSession_save (s : RailwayWorkoutSession)
    (sessions : List RailwayWorkoutSession) (u : RailwayUser) :
    List RailwayWorkoutSession × RailwayUser :=
  (sessions ++ [s], update_workout_stats (sessions ++ [s]) u)

/-- The `save` of the OPERATIVE `WorkoutSession` class — the second
top-level definition in `fitness_app/models.py` (line 322), which
shadows the first.  It declares no custom `save`, so the default model
`save` only persists the row and touches no field of the owning user. -/
def workoutSession_save_operative (s : RailwayWorkoutSession)
    (sessions : List RailwayWorkoutSession) (u : RailwayUser) :
    List RailwayWorkoutSession × RailwayUser :=
  (sessions ++ [s], u)

/-- The stored aggregates agree with the session set of the user. -/
def workout_stats_consistent (u : RailwayUser)
    (sessions : List RailwayWorkoutSession) : Prop :=
  u.total_workouts = sessions.length
  ∧ u.total_calories_burned = (sessions.map RailwayWorkoutSession.calories_burned).sum

/-- C10: the code bug at the failing input.  A user with stored
aggregates (0, 0) and no sessions saves one session of 100 calories
through the operative `WorkoutSession` class: the save persists the row
but leaves `total_workouts = 0` and `total_calories_burned = 0` while
the session set now holds 1 session totalling 100 calories — the
aggregates are stale.  The shadowed first class, whose `save` calls
`update_workout_stats`, would have restored consistency on the same
input, which is the claimed (and intended) invariant. -/
theorem C10_shadowed_save_bug :
    (workoutSession_save_operative ⟨100⟩ [] ⟨0, 0⟩).2.total_workouts = 0
  ∧ (workoutSession_save_operative ⟨100⟩ [] ⟨0, 0⟩).2.total_calories_burned = 0
  ∧ (workoutSession_save_operative ⟨100⟩ [] ⟨0, 0⟩).1.length = 1
  ∧ ((workoutSession_save_operative ⟨100⟩ [] ⟨0, 0⟩).1.map
      RailwayWorkoutSession.calories_burned).sum = 100
  ∧ workout_stats_consistent (workoutSession_save ⟨100⟩ [] ⟨0, 0⟩).2
      (workoutSession_save ⟨100⟩ [] ⟨0, 0⟩).1 :=
  ⟨rfl, rfl, rfl, rfl, rfl, rfl⟩

end WorkoutDeploy
